import Mathlib

/-!
# Verification of the PayPay Flutter backend (`server.js`)

Shallow embedding of the request-signing protocol and the two payment
handlers of the backend.  Bytes are `List Nat` (each entry `< 256`),
machine words are `Nat` taken modulo `2^32`, and the Node `crypto`
primitives (MD5, SHA-256, HMAC-SHA256, base64) are implemented
concretely from their standard definitions so that every step of
`generateAuthHeader` is executable.
-/

/-! ## Bytes and text encoding -/

/-- Reduce a machine word modulo `2^32`. -/
def m32 (x : Nat) : Nat := x % 4294967296

/-- Rotate a 32-bit word left by `n` bits (input assumed `< 2^32`). -/
def rotl32 (x n : Nat) : Nat := ((x <<< n) ||| (x >>> (32 - n))) % 4294967296

/-- Rotate a 32-bit word right by `n` bits (input assumed `< 2^32`). -/
def rotr32 (x n : Nat) : Nat := ((x >>> n) ||| (x <<< (32 - n))) % 4294967296

/-- UTF-8 encoding of a single character, as Node's `Buffer.from(s, 'utf8')`
produces for each code point. -/
def utf8Char (c : Char) : List Nat :=
  let n := c.toNat
  if n < 128 then [n]
  else if n < 2048 then [192 + n / 64, 128 + n % 64]
  else if n < 65536 then [224 + n / 4096, 128 + n / 64 % 64, 128 + n % 64]
  else [240 + n / 262144, 128 + n / 4096 % 64, 128 + n / 64 % 64, 128 + n % 64]

/-- UTF-8 bytes of a character list. -/
def bytesOfChars : List Char → List Nat
  | [] => []
  | c :: cs => utf8Char c ++ bytesOfChars cs

/-- UTF-8 bytes of a string, the byte stream Node's `crypto` hashes consume. -/
def strBytes (s : String) : List Nat := bytesOfChars s.data

/-! ## Base64 -/

/-- The 64-character base64 alphabet. -/
def base64Alphabet : List Char :=
  "ABCDEFGHIJKLMNOPQRSTUVWXYZabcdefghijklmnopqrstuvwxyz0123456789+/".data

/-- The base64 character for a 6-bit value. -/
def b64c (n : Nat) : Char := base64Alphabet.getD n 'A'

/-- Base64-encode a byte list, three bytes to four characters, `=`-padded. -/
def b64Aux : List Nat → List Char
  | [] => []
  | [b0] => [b64c (b0 / 4), b64c (b0 % 4 * 16), '=', '=']
  | [b0, b1] => [b64c (b0 / 4), b64c (b0 % 4 * 16 + b1 / 16), b64c (b1 % 16 * 4), '=']
  | b0 :: b1 :: b2 :: rest =>
      b64c (b0 / 4) :: b64c (b0 % 4 * 16 + b1 / 16) ::
      b64c (b1 % 16 * 4 + b2 / 64) :: b64c (b2 % 64) :: b64Aux rest

/-- Base64 encoding as a string, Node's `.digest('base64')`. -/
def base64Encode (l : List Nat) : String := String.mk (b64Aux l)

/-! ## Common hash plumbing: chunking, padding, word conversion -/

/-- Split a byte list into 64-byte blocks. -/
def chunks64 (l : List Nat) : List (List Nat) :=
  if l = [] then [] else l.take 64 :: chunks64 (l.drop 64)
termination_by l.length
decreasing_by
  have h : l ≠ [] := by assumption
  have hp : 0 < l.length := List.length_pos.mpr h
  simp only [List.length_drop]
  omega

/-- Four little-endian bytes of a 32-bit word. -/
def le4 (n : Nat) : List Nat := [n % 256, n / 256 % 256, n / 65536 % 256, n / 16777216 % 256]

/-- Four big-endian bytes of a 32-bit word. -/
def be4 (n : Nat) : List Nat := [n / 16777216 % 256, n / 65536 % 256, n / 256 % 256, n % 256]

/-- Eight little-endian bytes of a 64-bit value. -/
def le8 (n : Nat) : List Nat :=
  [n % 256, n / 256 % 256, n / 65536 % 256, n / 16777216 % 256,
   n / 4294967296 % 256, n / 1099511627776 % 256,
   n / 281474976710656 % 256, n / 72057594037927936 % 256]

/-- Eight big-endian bytes of a 64-bit value. -/
def be8 (n : Nat) : List Nat :=
  [n / 72057594037927936 % 256, n / 281474976710656 % 256,
   n / 1099511627776 % 256, n / 4294967296 % 256,
   n / 16777216 % 256, n / 65536 % 256, n / 256 % 256, n % 256]

/-- The 32-bit words of a block, little-endian (MD5). -/
def wordsLE : List Nat → List Nat
  | b0 :: b1 :: b2 :: b3 :: rest =>
      (b0 + 256 * b1 + 65536 * b2 + 16777216 * b3) :: wordsLE rest
  | _ => []

/-- The 32-bit words of a block, big-endian (SHA-256). -/
def wordsBE : List Nat → List Nat
  | b0 :: b1 :: b2 :: b3 :: rest =>
      (16777216 * b0 + 65536 * b1 + 256 * b2 + b3) :: wordsBE rest
  | _ => []

/-- Merkle–Damgård padding: `0x80`, zeros to 56 mod 64, then the 8-byte
bit length (`lenBytes` fixes the endianness). -/
def mdPadding (lenBytes : Nat → List Nat) (len : Nat) : List Nat :=
  128 :: List.replicate ((64 + 55 - len % 64) % 64) 0 ++ lenBytes (8 * len)

/-- Iterate a function `n` times. -/
def iterateN (f : α → α) : Nat → α → α
  | 0, a => a
  | n + 1, a => iterateN f n (f a)

/-! ## MD5 -/

/-- The four 32-bit MD5 chaining words. -/
structure MD5State where
  a : Nat
  b : Nat
  c : Nat
  d : Nat

/-- The 64 MD5 round constants `floor(|sin(i+1)| * 2^32)`. -/
def md5K : List Nat :=
  [3614090360, 3905402710, 606105819, 3250441966,
   4118548399, 1200080426, 2821735955, 4249261313,
   1770035416, 2336552879, 4294925233, 2304563134,
   1804603682, 4254626195, 2792965006, 1236535329,
   4129170786, 3225465664, 643717713, 3921069994,
   3593408605, 38016083, 3634488961, 3889429448,
   568446438, 3275163606, 4107603335, 1163531501,
   2850285829, 4243563512, 1735328473, 2368359562,
   4294588738, 2272392833, 1839030562, 4259657740,
   2763975236, 1272893353, 4139469664, 3200236656,
   681279174, 3936430074, 3572445317, 76029189,
   3654602809, 3873151461, 530742520, 3299628645,
   4096336452, 1126891415, 2878612391, 4237533241,
   1700485571, 2399980690, 4293915773, 2240044497,
   1873313359, 4264355552, 2734768916, 1309151649,
   4149444226, 3174756917, 718787259, 3951481745]

/-- The MD5 per-round left-rotation amounts. -/
def md5S : List Nat :=
  [7, 12, 17, 22, 7, 12, 17, 22, 7, 12, 17, 22, 7, 12, 17, 22,
   5, 9, 14, 20, 5, 9, 14, 20, 5, 9, 14, 20, 5, 9, 14, 20,
   4, 11, 16, 23, 4, 11, 16, 23, 4, 11, 16, 23, 4, 11, 16, 23,
   6, 10, 15, 21, 6, 10, 15, 21, 6, 10, 15, 21, 6, 10, 15, 21]

/-- The MD5 round function for step `i`. -/
def md5F (i b c d : Nat) : Nat :=
  if i < 16 then (b &&& c) ||| ((b ^^^ 4294967295) &&& d)
  else if i < 32 then (d &&& b) ||| ((d ^^^ 4294967295) &&& c)
  else if i < 48 then b ^^^ c ^^^ d
  else c ^^^ (b ||| (d ^^^ 4294967295))

/-- The MD5 message-word index for step `i`. -/
def md5G (i : Nat) : Nat :=
  if i < 16 then i
  else if i < 32 then (5 * i + 1) % 16
  else if i < 48 then (3 * i + 5) % 16
  else (7 * i) % 16

/-- One MD5 step on the chaining state. -/
def md5Step (msg : List Nat) (st : MD5State) (i : Nat) : MD5State :=
  let f := m32 (md5F i st.b st.c st.d + st.a + md5K.getD i 0 + msg.getD (md5G i) 0)
  ⟨st.d, m32 (st.b + rotl32 f (md5S.getD i 0)), st.b, st.c⟩

/-- MD5 compression of one 64-byte block. -/
def md5Compress (st : MD5State) (block : List Nat) : MD5State :=
  let msg := wordsLE block
  let r := (List.range 64).foldl (md5Step msg) st
  ⟨m32 (st.a + r.a), m32 (st.b + r.b), m32 (st.c + r.c), m32 (st.d + r.d)⟩

/-- The 16 little-endian digest bytes of an MD5 state. -/
def md5StateBytes (st : MD5State) : List Nat :=
  le4 st.a ++ le4 st.b ++ le4 st.c ++ le4 st.d

/-- MD5 digest of a byte message, as Node's
`crypto.createHash('md5') … digest()`. -/
def md5Bytes (msg : List Nat) : List Nat :=
  let padded := msg ++ mdPadding le8 msg.length
  md5StateBytes ((chunks64 padded).foldl md5Compress
    ⟨1732584193, 4023233417, 2562383102, 271733878⟩)

/-! ## SHA-256 -/

/-- The eight 32-bit SHA-256 chaining words. -/
structure SHA256State where
  h0 : Nat
  h1 : Nat
  h2 : Nat
  h3 : Nat
  h4 : Nat
  h5 : Nat
  h6 : Nat
  h7 : Nat

/-- The 64 SHA-256 round constants. -/
def sha256K : List Nat :=
  [1116352408, 1899447441, 3049323471, 3921009573,
   961987163, 1508970993, 2453635748, 2870763221,
   3624381080, 310598401, 607225278, 1426881987,
   1925078388, 2162078206, 2614888103, 3248222580,
   3835390401, 4022224774, 264347078, 604807628,
   770255983, 1249150122, 1555081692, 1996064986,
   2554220882, 2821834349, 2952996808, 3210313671,
   3336571891, 3584528711, 113926993, 338241895,
   666307205, 773529912, 1294757372, 1396182291,
   1695183700, 1986661051, 2177026350, 2456956037,
   2730485921, 2820302411, 3259730800, 3345764771,
   3516065817, 3600352804, 4094571909, 275423344,
   430227734, 506948616, 659060556, 883997877,
   958139571, 1322822218, 1537002063, 1747873779,
   1955562222, 2024104815, 2227730452, 2361852424,
   2428436474, 2756734187, 3204031479, 3329325298]

/-- SHA-256 big Σ₀. -/
def bigSigma0 (x : Nat) : Nat := rotr32 x 2 ^^^ rotr32 x 13 ^^^ rotr32 x 22

/-- SHA-256 big Σ₁. -/
def bigSigma1 (x : Nat) : Nat := rotr32 x 6 ^^^ rotr32 x 11 ^^^ rotr32 x 25

/-- SHA-256 small σ₀. -/
def smallSigma0 (x : Nat) : Nat := rotr32 x 7 ^^^ rotr32 x 18 ^^^ (x >>> 3)

/-- SHA-256 small σ₁. -/
def smallSigma1 (x : Nat) : Nat := rotr32 x 17 ^^^ rotr32 x 19 ^^^ (x >>> 10)

/-- Append the next word of the SHA-256 message schedule. -/
def sha256ExtendStep (w : List Nat) : List Nat :=
  let l := w.length
  w ++ [m32 (smallSigma1 (w.getD (l - 2) 0) + w.getD (l - 7) 0 +
             smallSigma0 (w.getD (l - 15) 0) + w.getD (l - 16) 0)]

/-- One SHA-256 round on the chaining state. -/
def sha256Step (w : List Nat) (st : SHA256State) (i : Nat) : SHA256State :=
  let ch := (st.h4 &&& st.h5) ^^^ ((st.h4 ^^^ 4294967295) &&& st.h6)
  let maj := (st.h0 &&& st.h1) ^^^ (st.h0 &&& st.h2) ^^^ (st.h1 &&& st.h2)
  let t1 := m32 (st.h7 + bigSigma1 st.h4 + ch + sha256K.getD i 0 + w.getD i 0)
  let t2 := m32 (bigSigma0 st.h0 + maj)
  ⟨m32 (t1 + t2), st.h0, st.h1, st.h2, m32 (st.h3 + t1), st.h4, st.h5, st.h6⟩

/-- SHA-256 compression of one 64-byte block. -/
def sha256Compress (st : SHA256State) (block : List Nat) : SHA256State :=
  let w := iterateN sha256ExtendStep 48 (wordsBE block)
  let r := (List.range 64).foldl (sha256Step w) st
  ⟨m32 (st.h0 + r.h0), m32 (st.h1 + r.h1), m32 (st.h2 + r.h2), m32 (st.h3 + r.h3),
   m32 (st.h4 + r.h4), m32 (st.h5 + r.h5), m32 (st.h6 + r.h6), m32 (st.h7 + r.h7)⟩

/-- The 32 big-endian digest bytes of a SHA-256 state. -/
def sha256StateBytes (st : SHA256State) : List Nat :=
  be4 st.h0 ++ be4 st.h1 ++ be4 st.h2 ++ be4 st.h3 ++
  be4 st.h4 ++ be4 st.h5 ++ be4 st.h6 ++ be4 st.h7

/-- SHA-256 digest of a byte message. -/
def sha256Bytes (msg : List Nat) : List Nat :=
  let padded := msg ++ mdPadding be8 msg.length
  sha256StateBytes ((chunks64 padded).foldl sha256Compress
    ⟨1779033703, 3144134277, 1013904242, 2773480762,
     1359893119, 2600822924, 528734635, 1541459225⟩)

/-! ## HMAC-SHA256 -/

/-- HMAC-SHA256 over byte lists, as Node's
`crypto.createHmac('sha256', key) … digest()`. -/
def hmacSha256 (key msg : List Nat) : List Nat :=
  let k0 := if key.length > 64 then sha256Bytes key else key
  let k := k0 ++ List.replicate (64 - k0.length) 0
  let ipad := k.map (fun b => b ^^^ 54)
  let opad := k.map (fun b => b ^^^ 92)
  sha256Bytes (opad ++ sha256Bytes (ipad ++ msg))

/-! ## Decimal rendering and JavaScript string trimming -/

/-- The decimal digit character for `d < 10`. -/
def decDigit (d : Nat) : Char := Char.ofNat (48 + d)

/-- Decimal digit characters of a natural number (no leading zeros),
the rendering a JavaScript template literal gives an integer. -/
def natDigits (n : Nat) : List Char :=
  if n < 10 then [decDigit n] else natDigits (n / 10) ++ [decDigit (n % 10)]
termination_by n
decreasing_by omega

/-- Decimal rendering of a natural number, as `${timestamp}` renders the
whole-second Unix timestamp. -/
def natRepr (n : Nat) : String := String.mk (natDigits n)

/-- The JavaScript `String.prototype.trim` whitespace class
(WhiteSpace ∪ LineTerminator). -/
def isJsWhitespace (c : Char) : Bool :=
  c == ' ' || c == '\t' || c == '\n' || c == '\r' ||
  c.toNat == 11 || c.toNat == 12 || c.toNat == 0xa0 || c.toNat == 0x1680 ||
  (0x2000 ≤ c.toNat && c.toNat ≤ 0x200a) || c.toNat == 0x2028 ||
  c.toNat == 0x2029 || c.toNat == 0x202f || c.toNat == 0x205f ||
  c.toNat == 0x3000 || c.toNat == 0xfeff

/-- Drop trailing characters satisfying `p`. -/
def dropTrailing (p : Char → Bool) (l : List Char) : List Char :=
  (l.reverse.dropWhile p).reverse

/-- JavaScript `body.trim()`. -/
def jsTrim (s : String) : String :=
  String.mk (dropTrailing isJsWhitespace (s.data.dropWhile isJsWhitespace))

/-! ## The signing protocol (`generateAuthHeader` in `server.js`) -/

/-- The credential triple loaded from `PAYPAY_API_KEY`,
`PAYPAY_API_SECRET`, `PAYPAY_MERCHANT_ID`; a missing or empty variable is
modelled as `""` (both are falsy in JavaScript). -/
structure Credential where
  key : String
  secret : String
  merchantId : String
deriving DecidableEq

/-- The mock-mode flag: the compile-time constant `MOCK_MODE = false` at
the top of `server.js`. -/
def MOCK_MODE : Bool := false

/-- Step 1 of `generateAuthHeader`: the content hash.  `"empty"` unless
the body is truthy, trims to a non-empty string, and the method is not
`GET`; otherwise the base64 MD5 digest of `'application/json'` followed
by the body. -/
def contentHash (method body : String) : String :=
  if body ≠ "" ∧ jsTrim body ≠ "" ∧ method ≠ "GET" then
    base64Encode (md5Bytes (strBytes "application/json" ++ strBytes body))
  else "empty"

/-- Step 2 of `generateAuthHeader`: the signature base string
`` `${method}\n${resourceUrl}\n${API_KEY}\n${timestamp}\n${nonce}\n${contentHash}\n` ``.
The timestamp and nonce are the injected values of
`Math.floor(Date.now() / 1000)` and `crypto.randomBytes(16).toString('hex')`. -/
def signatureString (cred : Credential) (method resourceUrl body : String)
    (timestamp : Nat) (nonce : String) : String :=
  method ++ "\n" ++ resourceUrl ++ "\n" ++ cred.key ++ "\n" ++
  natRepr timestamp ++ "\n" ++ nonce ++ "\n" ++ contentHash method body ++ "\n"

/-- Step 3 of `generateAuthHeader`: the base64 HMAC-SHA256 signature of
the base string under the API secret. -/
def signatureOf (cred : Credential) (method resourceUrl body : String)
    (timestamp : Nat) (nonce : String) : String :=
  base64Encode (hmacSha256 (strBytes cred.secret)
    (strBytes (signatureString cred method resourceUrl body timestamp nonce)))

/-- Step 4 of `generateAuthHeader`: the `Authorization` value
`` `hmac OPA-Auth:${API_KEY}:${signature}:${nonce}:${timestamp}` ``. -/
def authValue (cred : Credential) (method resourceUrl body : String)
    (timestamp : Nat) (nonce : String) : String :=
  "hmac OPA-Auth:" ++ cred.key ++ ":" ++
  signatureOf cred method resourceUrl body timestamp nonce ++ ":" ++
  nonce ++ ":" ++ natRepr timestamp

/-- The header object returned by `generateAuthHeader`, as an ordered
name–value list. -/
def generateAuthHeader (cred : Credential) (method resourceUrl body : String)
    (timestamp : Nat) (nonce : String) : List (String × String) :=
  [("Authorization", authValue cred method resourceUrl body timestamp nonce),
   ("Content-Type", "application/json"),
   ("X-ASSUME-MERCHANT", cred.merchantId)]

/-! ## Spec-side definitions (for the refinement-style claims) -/

/-- Spec §4.1 step 4: join fields "with literal newline separators and a
trailing newline". -/
def joinWithNewlines : List String → String
  | [] => ""
  | f :: rest => f ++ "\n" ++ joinWithNewlines rest

/-- Spec §4.1 step 3, stated from the spec's words: "If method is GET, or
body is empty/whitespace-only: use the literal sentinel string `empty`.
Otherwise: concatenate the fixed content-type string `application/json`
with the raw body bytes, hash with MD5, base64-encode the digest." -/
def specContentHash (method body : String) : String :=
  if method = "GET" ∨ jsTrim body = "" then "empty"
  else base64Encode (md5Bytes (strBytes "application/json" ++ strBytes body))

/-- Spec §8 verification recipe: from the header's key, nonce and
timestamp, recompute the content hash, rebuild the base string by the
spec's joining rule, HMAC it with the known secret, base64-encode, and
compare byte-for-byte with the embedded signature. -/
def verifySignature (secret method resourcePath body key nonce : String)
    (timestamp : Nat) (embeddedSig : String) : Bool :=
  let ch := specContentHash method body
  let base := joinWithNewlines [method, resourcePath, key, natRepr timestamp, nonce, ch]
  base64Encode (hmacSha256 (strBytes secret) (strBytes base)) == embeddedSig

/-! ## The request handlers -/

/-- Shallow model of a handler's JSON reply: HTTP status plus the body
fields the claims inspect.  A field the branch does not emit is `none`. -/
structure ApiResponse where
  status : Nat
  success : Bool
  error : Option String
  deeplink : Option String
  mockMode : Option Bool
deriving DecidableEq

/-- Provider payment data forwarded on success (the handler reads only
`response.data.data.deeplink`). -/
structure ProviderData where
  deeplink : String
deriving DecidableEq

/-- Outcome of the outbound `axios` call: success with data, or a
rejection carrying `error.response?.status` and `error.response?.data`. -/
inductive ProviderOutcome where
  | ok (data : ProviderData)
  | err (status : Option Nat) (data : Option String)
deriving DecidableEq

/-- The parsed `/create-payment` request body; `none` is an absent field. -/
structure CreatePaymentRequest where
  amount : Option Int
  merchantPaymentId : Option String
  description : Option String
deriving DecidableEq

/-- JavaScript falsiness of an optional number (`undefined` or `0`). -/
def jsFalsyNum : Option Int → Bool
  | none => true
  | some v => v == 0

/-- JavaScript falsiness of an optional string (`undefined` or `""`). -/
def jsFalsyStr : Option String → Bool
  | none => true
  | some s => s == ""

/-- The `JSON.stringify(paymentData)` body string for the create-payment payload, with the
object-literal key order. -/
def createPaymentBodyJson (amount : Int) (mpid desc : String) (ts : Nat) : String :=
  "\x7b\"merchantPaymentId\":\"" ++ mpid ++ "\",\"amount\":\x7b\"amount\":" ++
  toString amount ++ ",\"currency\":\"JPY\"\x7d,\"orderDescription\":\"" ++ desc ++
  "\",\"codeType\":\"ORDER_QR\",\"redirectUrl\":\"paypayflutterdemo://payment-success\"," ++
  "\"redirectType\":\"APP_DEEP_LINK\",\"requestedAt\":" ++ natRepr ts ++ "\x7d"

/-- Result of one run of the `/create-payment` handler: the reply, the
headers produced by the (at most one) `generateAuthHeader` call, whether
the outbound provider call happened, and whether the mock branch ran. -/
structure CreatePaymentResult where
  response : ApiResponse
  authHeaders : Option (List (String × String))
  providerCalled : Bool
  tookMockBranch : Bool
deriving DecidableEq

/-- The `POST /create-payment` handler of `server.js`: validate the three
fields, mock branch, else sign with `generateAuthHeader('POST', '/v2/codes',
JSON.stringify(paymentData))`, call the provider, and forward the outcome. -/
def createPaymentHandler (mock : Bool) (cred : Credential)
    (req : CreatePaymentRequest) (ts : Nat) (nonce : String)
    (provider : ProviderOutcome) : CreatePaymentResult :=
  if jsFalsyNum req.amount || jsFalsyStr req.merchantPaymentId ||
     jsFalsyStr req.description then
    ⟨⟨400, false, some "Missing required fields: amount, merchantPaymentId, description",
      none, none⟩, none, false, false⟩
  else if mock then
    let amount := req.amount.getD 0
    let mpid := req.merchantPaymentId.getD ""
    ⟨⟨200, true, none,
      some ("paypay://payment?link_id=mock_" ++ mpid ++ "&amount=" ++ toString amount),
      some true⟩, none, false, true⟩
  else
    let amount := req.amount.getD 0
    let mpid := req.merchantPaymentId.getD ""
    let desc := req.description.getD ""
    let body := createPaymentBodyJson amount mpid desc ts
    let headers := generateAuthHeader cred "POST" "/v2/codes" body ts nonce
    match provider with
    | .ok d => ⟨⟨200, true, none, some d.deeplink, some false⟩, some headers, true, false⟩
    | .err _ data =>
        ⟨⟨500, false, some (data.getD "Payment creation failed"), none, some mock⟩,
         some headers, true, false⟩

/-- Result of one run of the `/payment-status/:merchantPaymentId` handler,
with a marker for its `Missing merchantPaymentId parameter` branch. -/
structure PaymentStatusResult where
  response : ApiResponse
  authHeaders : Option (List (String × String))
  providerCalled : Bool
  tookMockBranch : Bool
  tookMissingParamBranch : Bool
deriving DecidableEq

/-- The `GET /payment-status/:merchantPaymentId` handler of `server.js`:
guard the parameter, mock branch, else sign a GET on
`` `/v2/payments/${merchantPaymentId}` `` with the default empty body,
call the provider, and map a 404 rejection to `Payment not found`. -/
def paymentStatusHandler (mock : Bool) (cred : Credential)
    (merchantPaymentId : String) (ts : Nat) (nonce : String)
    (provider : ProviderOutcome) : PaymentStatusResult :=
  if merchantPaymentId = "" then
    ⟨⟨400, false, some "Missing merchantPaymentId parameter", none, none⟩,
     none, false, false, true⟩
  else if mock then
    ⟨⟨200, true, none, none, some true⟩, none, false, true, false⟩
  else
    let headers := generateAuthHeader cred "GET"
      ("/v2/payments/" ++ merchantPaymentId) "" ts nonce
    match provider with
    | .ok _ => ⟨⟨200, true, none, none, some false⟩, some headers, true, false, false⟩
    | .err st data =>
        if st = some 404 then
          ⟨⟨404, false, some "Payment not found", none, some mock⟩,
           some headers, true, false, false⟩
        else
          ⟨⟨500, false, some (data.getD "Failed to get payment status"), none, some mock⟩,
           some headers, true, false, false⟩

/-- The startup credential check of `server.js`:
`if (!MOCK_MODE && (!API_KEY || !API_SECRET || !MERCHANT_ID)) process.exit(1)`.
`true` means the process exits. -/
def startupExits (cred : Credential) : Bool :=
  !MOCK_MODE && (cred.key == "" || cred.secret == "" || cred.merchantId == "")

/-- Split a character list at every `'/'` (the separators themselves are
dropped; adjacent separators yield empty segments). -/
def splitSlash : List Char → List (List Char)
  | [] => [[]]
  | c :: rest =>
    match splitSlash rest with
    | seg :: segs => if c = '/' then [] :: seg :: segs else (c :: seg) :: segs
    | [] => [[]]

/-- The `/`-separated segments of a request path. -/
def pathSegments (path : String) : List String :=
  (splitSlash path.data).map String.mk

/-- Modelled from the spec: Express route matching for
`/payment-status/:merchantPaymentId`.  The HTTP framework is the spec's
"external collaborator"; a required path parameter matches exactly one
non-empty segment, with an optional trailing slash.  Returns the
parameter when the route matches. -/
def matchPaymentStatusRoute (path : String) : Option String :=
  match pathSegments path with
  | ["", "payment-status", s] => if s = "" then none else some s
  | ["", "payment-status", s, ""] => if s = "" then none else some s
  | _ => none

/-- Whether `needle` occurs as a contiguous substring of the character
list. -/
def includesCL (needle : List Char) : List Char → Bool
  | [] => needle.isEmpty
  | c :: rest => needle.isPrefixOf (c :: rest) || includesCL needle rest

/-- JavaScript `haystack.includes(needle)`. -/
def strIncludes (haystack needle : String) : Bool :=
  includesCL needle.data haystack.data

/-- Decimal value of a digit-character list (left fold, most significant
first); inverse of `natDigits`. -/
def digitsVal (l : List Char) : Nat :=
  l.foldl (fun a c => 10 * a + (c.toNat - 48)) 0

/-! ## Helper lemmas -/

theorem md5StateBytes_length (st : MD5State) : (md5StateBytes st).length = 16 := rfl

theorem md5Bytes_length (msg : List Nat) : (md5Bytes msg).length = 16 := rfl

theorem sha256StateBytes_length (st : SHA256State) : (sha256StateBytes st).length = 32 := rfl

theorem sha256Bytes_length (msg : List Nat) : (sha256Bytes msg).length = 32 := rfl

theorem hmacSha256_length (key msg : List Nat) : (hmacSha256 key msg).length = 32 := rfl

theorem b64Aux_length (l : List Nat) : (b64Aux l).length = (l.length + 2) / 3 * 4 := by
  induction l using b64Aux.induct <;> simp [b64Aux, *] <;> try omega

theorem base64Encode_length (l : List Nat) : (base64Encode l).length = (l.length + 2) / 3 * 4 := by
  have h : (base64Encode l).length = (b64Aux l).length := rfl
  rw [h, b64Aux_length]

theorem md5_base64_ne_empty (msg : List Nat) : base64Encode (md5Bytes msg) ≠ "empty" := by
  intro h
  have h1 : (base64Encode (md5Bytes msg)).length = 24 := by
    rw [base64Encode_length, md5Bytes_length]
  rw [h] at h1
  exact absurd h1 (by decide)

theorem jsTrim_empty : jsTrim "" = "" := rfl

/-- C1 helper: the code's hashing condition is the complement of the
spec's sentinel condition. -/
theorem contentHash_cond_iff (method body : String) :
    (body ≠ "" ∧ jsTrim body ≠ "" ∧ method ≠ "GET") ↔
    ¬ (method = "GET" ∨ jsTrim body = "") := by
  constructor
  · rintro ⟨_, ht, hm⟩ (h | h)
    exacts [hm h, ht h]
  · intro h
    push_neg at h
    exact ⟨fun hb => h.2 (by rw [hb]; rfl), h.2, h.1⟩

theorem contentHash_eq_spec (method body : String) :
    contentHash method body = specContentHash method body := by
  rw [contentHash, specContentHash]
  by_cases h : method = "GET" ∨ jsTrim body = ""
  · rw [if_neg (fun hc => (contentHash_cond_iff method body).mp hc h), if_pos h]
  · rw [if_pos ((contentHash_cond_iff method body).mpr h), if_neg h]

/-- C1: `contentHash` is the sentinel `"empty"` iff the method is `GET` or
the body is empty/whitespace-only; otherwise it is the base64 MD5 digest
of `"application/json"` followed by the raw body. -/
theorem contentHash_empty_iff (method body : String) :
    (contentHash method body = "empty" ↔ method = "GET" ∨ jsTrim body = "") ∧
    (¬ (method = "GET" ∨ jsTrim body = "") →
      contentHash method body =
        base64Encode (md5Bytes (strBytes "application/json" ++ strBytes body))) := by
  constructor
  · constructor
    · intro h
      by_contra hc
      rw [contentHash, if_pos ((contentHash_cond_iff method body).mpr hc)] at h
      exact md5_base64_ne_empty _ h
    · intro h
      rw [contentHash, if_neg (fun hc => (contentHash_cond_iff method body).mp hc h)]
  · intro h
    rw [contentHash, if_pos ((contentHash_cond_iff method body).mpr h)]

/-- C1 witness at method `"POST"`, body `"x"`. -/
theorem contentHash_empty_iff_witness :
    (contentHash "POST" "x" = "empty" ↔ "POST" = "GET" ∨ jsTrim "x" = "") ∧
    contentHash "POST" "x" =
      base64Encode (md5Bytes (strBytes "application/json" ++ strBytes "x")) :=
  ⟨(contentHash_empty_iff "POST" "x").1,
   (contentHash_empty_iff "POST" "x").2 (by decide)⟩

/-- C2 helper, shared with C3: the base string is the six fields joined
with newline separators and a trailing newline. -/
theorem signatureString_join (cred : Credential) (m p b : String) (ts : Nat) (n : String) :
    signatureString cred m p b ts n =
      joinWithNewlines [m, p, cred.key, natRepr ts, n, contentHash m b] := by
  simp [signatureString, joinWithNewlines, String.append_assoc]

/-- C2: the signature base string is exactly the six fields — method,
resource path, API key, timestamp, nonce, contentHash — joined with
literal newline separators and terminated by a trailing newline. -/
theorem signatureString_is_join (cred : Credential) (m p b : String) (ts : Nat) (n : String) :
    signatureString cred m p b ts n =
      joinWithNewlines [m, p, cred.key, natRepr ts, n, contentHash m b] :=
  signatureString_join cred m p b ts n

/-- C3: the emitted `Authorization` value embeds the signature between the
key and the nonce, and recomputing HMAC-SHA256 with the credential secret
over the base string rebuilt (by the spec's recipe) from the header's key,
nonce, timestamp and the recomputed content hash, then base64-encoding,
reproduces that signature byte-for-byte. -/
theorem verifySignature_roundtrip (cred : Credential) (m p b : String) (ts : Nat) (n : String) :
    authValue cred m p b ts n =
      "hmac OPA-Auth:" ++ cred.key ++ ":" ++ signatureOf cred m p b ts n ++ ":" ++
        n ++ ":" ++ natRepr ts ∧
    verifySignature cred.secret m p b cred.key n ts (signatureOf cred m p b ts n) = true := by
  refine ⟨rfl, ?_⟩
  have h1 : joinWithNewlines [m, p, cred.key, natRepr ts, n, specContentHash m b] =
      signatureString cred m p b ts n := by
    rw [← contentHash_eq_spec, signatureString_join]
  simp only [verifySignature, h1, signatureOf, beq_self_eq_true]

/-- C4: `generateAuthHeader` emits exactly three headers: the
`Authorization` value `hmac OPA-Auth:<key>:<signature>:<nonce>:<timestamp>`
with no further components, `Content-Type: application/json`, and
`X-ASSUME-MERCHANT: <merchant-id>`. -/
theorem generateAuthHeader_shape (cred : Credential) (m p b : String) (ts : Nat) (n : String) :
    generateAuthHeader cred m p b ts n =
      [("Authorization",
        "hmac OPA-Auth:" ++ cred.key ++ ":" ++ signatureOf cred m p b ts n ++ ":" ++
          n ++ ":" ++ natRepr ts),
       ("Content-Type", "application/json"),
       ("X-ASSUME-MERCHANT", cred.merchantId)] ∧
    (generateAuthHeader cred m p b ts n).length = 3 :=
  ⟨rfl, rfl⟩

/-! ## Decimal-string lemmas (for C5) -/

theorem decDigit_toNat (d : Nat) (h : d < 10) : (decDigit d).toNat = 48 + d := by
  interval_cases d <;> decide

theorem natDigits_no_newline (n : Nat) : ∀ c ∈ natDigits n, c ≠ '\n' := by
  induction n using natDigits.induct with
  | case1 n h =>
      intro c hc
      rw [natDigits, if_pos h] at hc
      simp only [List.mem_singleton] at hc
      subst hc
      interval_cases n <;> decide
  | case2 n h ih =>
      intro c hc
      rw [natDigits, if_neg h] at hc
      rcases List.mem_append.mp hc with h1 | h1
      · exact ih c h1
      · simp only [List.mem_singleton] at h1
        subst h1
        have hd : n % 10 < 10 := Nat.mod_lt _ (by norm_num)
        intro hcon
        have := decDigit_toNat (n % 10) hd
        rw [hcon, show Char.toNat '\n' = 10 from rfl] at this
        omega

theorem digitsVal_append_digit (l : List Char) (c : Char) :
    digitsVal (l ++ [c]) = 10 * digitsVal l + (c.toNat - 48) := by
  simp [digitsVal, List.foldl_append]

theorem digitsVal_natDigits (n : Nat) : digitsVal (natDigits n) = n := by
  induction n using natDigits.induct with
  | case1 n h =>
      rw [natDigits, if_pos h]
      simp only [digitsVal, List.foldl_cons, List.foldl_nil]
      rw [decDigit_toNat n h]
      omega
  | case2 n h ih =>
      rw [natDigits, if_neg h, digitsVal_append_digit, ih,
        decDigit_toNat (n % 10) (Nat.mod_lt _ (by norm_num))]
      omega

theorem natRepr_injective {m n : Nat} (h : natRepr m = natRepr n) : m = n := by
  have hd : natDigits m = natDigits n := congrArg String.data h
  calc m = digitsVal (natDigits m) := (digitsVal_natDigits m).symm
    _ = digitsVal (natDigits n) := congrArg digitsVal hd
    _ = n := digitsVal_natDigits n

/-! ## Unique parsing of newline-separated fields (for C5) -/

theorem noNl_append_inj (x : List Char) : ∀ (y u v : List Char),
    (∀ c ∈ x, c ≠ '\n') → (∀ c ∈ y, c ≠ '\n') →
    x ++ '\n' :: u = y ++ '\n' :: v → x = y ∧ u = v := by
  induction x with
  | nil =>
      intro y u v _ hy h
      cases y with
      | nil => simpa using h
      | cons b ys =>
          simp only [List.nil_append, List.cons_append, List.cons.injEq] at h
          exact absurd h.1.symm (hy b (by simp))
  | cons a xs ih =>
      intro y u v hx hy h
      cases y with
      | nil =>
          simp only [List.nil_append, List.cons_append, List.cons.injEq] at h
          exact absurd h.1 (hx a (by simp))
      | cons b ys =>
          simp only [List.cons_append, List.cons.injEq] at h
          obtain ⟨hab, hrest⟩ := h
          obtain ⟨h1, h2⟩ := ih ys u v (fun c hc => hx c (by simp [hc]))
            (fun c hc => hy c (by simp [hc])) hrest
          exact ⟨by rw [hab, h1], h2⟩

/-! ## Byte-range and indexing lemmas (for C5's pigeonhole argument) -/

theorem be4_lt (w : Nat) : ∀ x ∈ be4 w, x < 256 := by
  intro x hx
  simp only [be4, List.mem_cons, List.not_mem_nil, or_false] at hx
  rcases hx with h | h | h | h <;> subst h <;> exact Nat.mod_lt _ (by norm_num)

theorem sha256StateBytes_lt (st : SHA256State) : ∀ x ∈ sha256StateBytes st, x < 256 := by
  intro x hx
  simp only [sha256StateBytes, List.append_assoc, List.mem_append] at hx
  rcases hx with h | h | h | h | h | h | h | h <;> exact be4_lt _ x h

theorem sha256Bytes_lt (msg : List Nat) : ∀ x ∈ sha256Bytes msg, x < 256 :=
  fun x hx => sha256StateBytes_lt _ x hx

theorem hmacSha256_lt (key msg : List Nat) : ∀ x ∈ hmacSha256 key msg, x < 256 :=
  fun x hx => sha256Bytes_lt _ x hx

theorem getD_lt_bound (l : List Nat) (hl : ∀ x ∈ l, x < 256) (i : Nat) :
    l.getD i 0 < 256 := by
  induction l generalizing i with
  | nil => simp [List.getD]
  | cons a as ih =>
      cases i with
      | zero => exact hl a (by simp)
      | succ j => exact ih (fun x hx => hl x (by simp [hx])) j

theorem getD_of_le (l : List Nat) (i : Nat) (h : l.length ≤ i) : l.getD i 0 = 0 := by
  induction l generalizing i with
  | nil => simp [List.getD]
  | cons a as ih =>
      cases i with
      | zero => simp at h
      | succ j =>
          simp only [List.length_cons, Nat.add_le_add_iff_right] at h
          simpa using ih j h

theorem list_eq_of_getD (l1 l2 : List Nat) (hlen : l1.length = l2.length)
    (h : ∀ i, l1.getD i 0 = l2.getD i 0) : l1 = l2 := by
  induction l1 generalizing l2 with
  | nil => cases l2 with
      | nil => rfl
      | cons b bs => simp at hlen
  | cons a as ih =>
      cases l2 with
      | nil => simp at hlen
      | cons b bs =>
          have h0 := h 0
          simp only [List.getD_cons_zero] at h0
          subst h0
          have htail := ih bs (by simpa using hlen) (fun i => by simpa using h (i + 1))
          rw [htail]

theorem nl_data : ("\n" : String).data = ['\n'] := rfl

/-- C5 (amended): with the clock and randomness injected, the builder is a
pure function, so two runs with the same timestamp and nonce produce
identical headers; and two runs differing in timestamp or in
(newline-free) nonce produce different signature *base strings*.  The
original claim's "different signatures" cannot hold universally
(see the counterexample theorem). -/
theorem signing_deterministic_and_base_distinct (cred : Credential) (m p b : String)
    (ts ts' : Nat) (n n' : String)
    (hn : ∀ c ∈ n.data, c ≠ '\n') (hn' : ∀ c ∈ n'.data, c ≠ '\n')
    (hdiff : ts ≠ ts' ∨ n ≠ n') :
    generateAuthHeader cred m p b ts n = generateAuthHeader cred m p b ts n ∧
    signatureString cred m p b ts n ≠ signatureString cred m p b ts' n' := by
  refine ⟨rfl, fun heq => ?_⟩
  have hd := congrArg String.data heq
  simp only [signatureString, String.data_append, List.append_assoc, nl_data,
    List.cons_append, List.nil_append, List.singleton_append] at hd
  have h1 := List.append_cancel_left hd
  simp only [List.cons.injEq, true_and] at h1
  have h2 := List.append_cancel_left h1
  simp only [List.cons.injEq, true_and] at h2
  have h3 := List.append_cancel_left h2
  simp only [List.cons.injEq, true_and] at h3
  obtain ⟨hts, hrest⟩ := noNl_append_inj (natRepr ts).data (natRepr ts').data _ _
    (natDigits_no_newline ts) (natDigits_no_newline ts') h3
  obtain ⟨hns, -⟩ := noNl_append_inj n.data n'.data _ _ hn hn' hrest
  rcases hdiff with hdiff | hdiff
  · exact hdiff (natRepr_injective (String.ext hts))
  · exact hdiff (String.ext hns)

/-- C5 witness at timestamps 1 and 2, nonce `"00"`. -/
theorem signing_deterministic_and_base_distinct_witness :
    generateAuthHeader ⟨"k", "s", "m"⟩ "GET" "/x" "" 1 "00" =
      generateAuthHeader ⟨"k", "s", "m"⟩ "GET" "/x" "" 1 "00" ∧
    signatureString ⟨"k", "s", "m"⟩ "GET" "/x" "" 1 "00" ≠
      signatureString ⟨"k", "s", "m"⟩ "GET" "/x" "" 2 "00" :=
  signing_deterministic_and_base_distinct ⟨"k", "s", "m"⟩ "GET" "/x" "" 1 2 "00" "00"
    (by decide) (by decide) (Or.inl (by decide))

/-- C5 counterexample: the claim's universal "different timestamps (or
nonces) produce different signatures" is false — infinitely many
timestamps map into the finite set of 32-byte HMAC digests, so by
pigeonhole two distinct timestamps share a signature. -/
theorem signature_distinct_counterexample :
    ¬ (∀ (cred : Credential) (m p b : String) (ts ts' : Nat) (n n' : String),
        ts ≠ ts' ∨ n ≠ n' →
        signatureOf cred m p b ts n ≠ signatureOf cred m p b ts' n') := by
  intro hclaim
  obtain ⟨t1, t2, hne, heq⟩ := Finite.exists_ne_map_eq_of_infinite
    (fun t : Nat => fun i : Fin 32 =>
      (⟨(hmacSha256 (strBytes "s")
          (strBytes (signatureString ⟨"k", "s", "m"⟩ "GET" "/v2/codes" "" t "00"))).getD i.val 0 % 256,
        Nat.mod_lt _ (by norm_num)⟩ : Fin 256))
  have hbytes :
      hmacSha256 (strBytes "s")
        (strBytes (signatureString ⟨"k", "s", "m"⟩ "GET" "/v2/codes" "" t1 "00")) =
      hmacSha256 (strBytes "s")
        (strBytes (signatureString ⟨"k", "s", "m"⟩ "GET" "/v2/codes" "" t2 "00")) := by
    apply list_eq_of_getD
    · rw [hmacSha256_length, hmacSha256_length]
    · intro i
      by_cases hi : i < 32
      · have hfe := congrFun heq ⟨i, hi⟩
        simp only [Fin.mk.injEq] at hfe
        have b1 := getD_lt_bound
          (hmacSha256 (strBytes "s")
            (strBytes (signatureString ⟨"k", "s", "m"⟩ "GET" "/v2/codes" "" t1 "00")))
          (hmacSha256_lt _ _) i
        have b2 := getD_lt_bound
          (hmacSha256 (strBytes "s")
            (strBytes (signatureString ⟨"k", "s", "m"⟩ "GET" "/v2/codes" "" t2 "00")))
          (hmacSha256_lt _ _) i
        omega
      · rw [getD_of_le _ _ (by rw [hmacSha256_length]; omega),
            getD_of_le _ _ (by rw [hmacSha256_length]; omega)]
  exact hclaim ⟨"k", "s", "m"⟩ "GET" "/v2/codes" "" t1 t2 "00" "00" (Or.inl hne)
    (congrArg base64Encode hbytes)

/-! ## Handler claims -/

/-- C6: a create-payment request missing `amount`, `merchantPaymentId` or
`description` gets the 400 validation failure with `success:false`, and
neither `generateAuthHeader` nor the outbound provider call runs. -/
theorem createPayment_missing_field (mock : Bool) (cred : Credential)
    (req : CreatePaymentRequest) (ts : Nat) (n : String) (prov : ProviderOutcome)
    (h : req.amount = none ∨ req.merchantPaymentId = none ∨ req.description = none) :
    createPaymentHandler mock cred req ts n prov =
      ⟨⟨400, false, some "Missing required fields: amount, merchantPaymentId, description",
        none, none⟩, none, false, false⟩ := by
  have hc : (jsFalsyNum req.amount || jsFalsyStr req.merchantPaymentId ||
      jsFalsyStr req.description) = true := by
    rcases h with h | h | h <;> simp [jsFalsyNum, jsFalsyStr, h]
  simp [createPaymentHandler, hc]

/-- C6 witness: request with a missing `amount`. -/
theorem createPayment_missing_field_witness :
    (some "x" : Option String) ≠ none ∧
    createPaymentHandler false ⟨"k", "s", "m"⟩ ⟨none, some "x", some "y"⟩ 0 "00"
        (.err none none) =
      ⟨⟨400, false, some "Missing required fields: amount, merchantPaymentId, description",
        none, none⟩, none, false, false⟩ :=
  ⟨by decide,
   createPayment_missing_field false ⟨"k", "s", "m"⟩ ⟨none, some "x", some "y"⟩ 0 "00"
     (.err none none) (Or.inl rfl)⟩

/-- C7: when the provider call rejects with HTTP 404, the status handler
returns the distinct 404 `Payment not found` outcome; any other provider
rejection gets the generic 500. -/
theorem paymentStatus_404_distinct (cred : Credential) (id ts_n : String) (ts : Nat)
    (data : Option String) (h : id ≠ "") :
    (paymentStatusHandler MOCK_MODE cred id ts ts_n (.err (some 404) data)).response =
      ⟨404, false, some "Payment not found", none, some false⟩ ∧
    (∀ (st : Option Nat) (data' : Option String), st ≠ some 404 →
      (paymentStatusHandler MOCK_MODE cred id ts ts_n (.err st data')).response.status = 500) := by
  constructor
  · simp [paymentStatusHandler, h, MOCK_MODE]
  · intro st d hst
    simp [paymentStatusHandler, h, MOCK_MODE, hst]

/-- C7 witness at id `"abc"`, provider rejection without a status. -/
theorem paymentStatus_404_distinct_witness :
    ("abc" : String) ≠ "" ∧ (none : Option Nat) ≠ some 404 ∧
    (paymentStatusHandler MOCK_MODE ⟨"k", "s", "m"⟩ "abc" 0 "00"
        (.err (some 404) none)).response =
      ⟨404, false, some "Payment not found", none, some false⟩ ∧
    (paymentStatusHandler MOCK_MODE ⟨"k", "s", "m"⟩ "abc" 0 "00"
        (.err none none)).response.status = 500 :=
  ⟨by decide, by decide,
   (paymentStatus_404_distinct ⟨"k", "s", "m"⟩ "abc" "00" 0 none (by decide)).1,
   (paymentStatus_404_distinct ⟨"k", "s", "m"⟩ "abc" "00" 0 none (by decide)).2
     none none (by decide)⟩

/-- C8: in mock mode, a create-payment request with amount 100, id `abc`,
description `test` succeeds with a deep link containing `abc` and
`amount=100`, and neither signing nor an outbound call happens. -/
theorem createPayment_mock_success :
    (createPaymentHandler true ⟨"k", "s", "m"⟩ ⟨some 100, some "abc", some "test"⟩ 0 "00"
        (.err none none)).response.success = true ∧
    (createPaymentHandler true ⟨"k", "s", "m"⟩ ⟨some 100, some "abc", some "test"⟩ 0 "00"
        (.err none none)).response.deeplink =
      some "paypay://payment?link_id=mock_abc&amount=100" ∧
    strIncludes "paypay://payment?link_id=mock_abc&amount=100" "abc" = true ∧
    strIncludes "paypay://payment?link_id=mock_abc&amount=100" "amount=100" = true ∧
    (createPaymentHandler true ⟨"k", "s", "m"⟩ ⟨some 100, some "abc", some "test"⟩ 0 "00"
        (.err none none)).authHeaders = none ∧
    (createPaymentHandler true ⟨"k", "s", "m"⟩ ⟨some 100, some "abc", some "test"⟩ 0 "00"
        (.err none none)).providerCalled = false := by
  decide

/-- C9: a path matched by the `/payment-status/:merchantPaymentId` route
carries a non-empty parameter, so the handler's 400
`Missing merchantPaymentId parameter` branch can never run. -/
theorem paymentStatus_param_nonempty (path p : String)
    (h : matchPaymentStatusRoute path = some p) :
    p ≠ "" ∧ ∀ (cred : Credential) (ts : Nat) (n : String) (prov : ProviderOutcome),
      (paymentStatusHandler MOCK_MODE cred p ts n prov).tookMissingParamBranch = false ∧
      (paymentStatusHandler MOCK_MODE cred p ts n prov).response.status ≠ 400 := by
  have hp : p ≠ "" := by
    unfold matchPaymentStatusRoute at h
    split at h
    · split at h
      · exact absurd h (by simp)
      · cases h; assumption
    · split at h
      · exact absurd h (by simp)
      · cases h; assumption
    · exact absurd h (by simp)
  refine ⟨hp, fun cred ts n prov => ?_⟩
  cases prov with
  | ok d => simp [paymentStatusHandler, hp, MOCK_MODE]
  | err st data =>
      by_cases h4 : st = some 404 <;>
        simp [paymentStatusHandler, hp, MOCK_MODE, h4]

/-- C9 witness at the request path `/payment-status/abc`. -/
theorem paymentStatus_param_nonempty_witness :
    matchPaymentStatusRoute "/payment-status/abc" = some "abc" ∧
    ("abc" : String) ≠ "" ∧
    (paymentStatusHandler MOCK_MODE ⟨"k", "s", "m"⟩ "abc" 0 "00"
        (.ok ⟨"d"⟩)).tookMissingParamBranch = false ∧
    (paymentStatusHandler MOCK_MODE ⟨"k", "s", "m"⟩ "abc" 0 "00"
        (.ok ⟨"d"⟩)).response.status ≠ 400 :=
  ⟨by decide,
   (paymentStatus_param_nonempty "/payment-status/abc" "abc" (by decide)).1,
   ((paymentStatus_param_nonempty "/payment-status/abc" "abc" (by decide)).2
     ⟨"k", "s", "m"⟩ 0 "00" (.ok ⟨"d"⟩)).1,
   ((paymentStatus_param_nonempty "/payment-status/abc" "abc" (by decide)).2
     ⟨"k", "s", "m"⟩ 0 "00" (.ok ⟨"d"⟩)).2⟩

/-- C10 counterexample: the 400 validation-failure reply of
`/create-payment` carries no `mockMode` field at all, so not every handler
response carries `mockMode:false`. -/
theorem validation_response_lacks_mockMode :
    ¬ ((createPaymentHandler MOCK_MODE ⟨"k", "s", "m"⟩ ⟨none, some "x", some "y"⟩ 0 "00"
        (.err none none)).response.mockMode = some false) := by
  decide

/-- C10 (amended): `MOCK_MODE` is the compile-time constant `false`, the
mock branches of both handlers are unreachable, no handler response ever
carries `mockMode:true` (the field, when present, is `false`), and missing
credentials make startup exit. -/
theorem mock_mode_disabled_invariants :
    MOCK_MODE = false ∧
    (∀ (cred : Credential) (req : CreatePaymentRequest) (ts : Nat) (n : String)
        (prov : ProviderOutcome),
      (createPaymentHandler MOCK_MODE cred req ts n prov).tookMockBranch = false ∧
      (createPaymentHandler MOCK_MODE cred req ts n prov).response.mockMode ≠ some true) ∧
    (∀ (cred : Credential) (id : String) (ts : Nat) (n : String) (prov : ProviderOutcome),
      (paymentStatusHandler MOCK_MODE cred id ts n prov).tookMockBranch = false ∧
      (paymentStatusHandler MOCK_MODE cred id ts n prov).response.mockMode ≠ some true) ∧
    (∀ cred : Credential, cred.key = "" ∨ cred.secret = "" ∨ cred.merchantId = "" →
      startupExits cred = true) := by
  refine ⟨rfl, fun cred req ts n prov => ?_, fun cred id ts n prov => ?_, fun cred h => ?_⟩
  · cases hv : (jsFalsyNum req.amount || jsFalsyStr req.merchantPaymentId ||
        jsFalsyStr req.description) with
    | true => simp [createPaymentHandler, hv, MOCK_MODE]
    | false => cases prov <;> simp [createPaymentHandler, hv, MOCK_MODE]
  · by_cases hid : id = ""
    · simp [paymentStatusHandler, hid, MOCK_MODE]
    · cases prov with
      | ok d => simp [paymentStatusHandler, hid, MOCK_MODE]
      | err st data =>
          by_cases h4 : st = some 404 <;>
            simp [paymentStatusHandler, hid, MOCK_MODE, h4]
  · rcases h with h | h | h <;> simp [startupExits, MOCK_MODE, h]

/-- C10 witness: a concrete mock-branch check and a missing-credential
startup exit. -/
theorem mock_mode_disabled_invariants_witness :
    MOCK_MODE = false ∧
    (createPaymentHandler MOCK_MODE ⟨"k", "s", "m"⟩ ⟨some 1, some "a", some "b"⟩ 0 "00"
        (.ok ⟨"d"⟩)).tookMockBranch = false ∧
    startupExits ⟨"", "s", "m"⟩ = true :=
  ⟨mock_mode_disabled_invariants.1,
   (mock_mode_disabled_invariants.2.1 ⟨"k", "s", "m"⟩ ⟨some 1, some "a", some "b"⟩ 0 "00"
     (.ok ⟨"d"⟩)).1,
   mock_mode_disabled_invariants.2.2.2 ⟨"", "s", "m"⟩ (Or.inl rfl)⟩
